import Mathlib

/-!
Shallow embedding of `webrtc/common_video/incoming_video_stream.cc`
(`IncomingVideoStream`): the per-stream frame-delivery scheduler.

The class is embedded as a state record mirroring its fields.  Each member
function becomes a Lean function from the state (plus its explicit inputs:
the current tick time, the result of the event wait) to a result, a new
state, and a trace of the externally observable actions it performs
(timer/event calls, thread lifecycle calls, buffer calls, callback
dispatches).  The render buffer (`VideoRenderFrames`) and the OS
thread/event primitives are external collaborators: the buffer's operations
are taken as parameters, and the event/thread side effects appear only in
the trace.
-/

namespace WebRtc

/-- Modelled from the spec: the video frame's pixel representation is out of
scope; the core only inspects `IsZeroSize()` (the empty sentinel).  A frame
is a tag (identity) together with its zero-size flag. -/
structure VideoFrame where
  tag : Nat
  zeroSize : Bool
deriving DecidableEq, Repr

/-- Embeds `VideoFrame::IsZeroSize()`. -/
def VideoFrame.IsZeroSize (f : VideoFrame) : Bool := f.zeroSize

/-- Modelled from the spec: the configuration constants
(`kFrameRatePeriodMs`, `kEventStartupTimeMs`, `kEventMaxWaitTimeMs`) are
declared in the header, which is not part of the excerpt; the spec says
they are tunable (rate-window period, startup-arm delay, safety ceiling). -/
structure Config where
  kFrameRatePeriodMs : Nat
  kEventStartupTimeMs : Nat
  kEventMaxWaitTimeMs : Nat
deriving DecidableEq, Repr

/-- Result of `EventTimerWrapper::Wait`: `kEventError`, `kEventSignaled`
or `kEventTimeout`. -/
inductive WaitResult where
  | error
  | signaled
  | timeout
deriving DecidableEq, Repr

/-- Externally observable actions of the stream: calls on the wake
primitive, on the owned presentation thread, on the render buffer, and
callback dispatches (a callback is identified by a numeric id). -/
inductive Ev where
  | timerStart (periodic : Bool) (timeMs : Nat)
  | timerStop
  | eventSet
  | threadCreate
  | threadStart
  | threadReleased
  | threadJoin
  | threadDelete
  | bufferInsert (f : VideoFrame)
  | bufferPop
  | bufferSetDelay (delayMs : Int)
  | bufferFlush
  | dispatch (cb : Nat) (streamId : Nat) (f : VideoFrame)
deriving DecidableEq, Repr

/-- The fields of `IncomingVideoStream`.  `β` is the state of the owned
`VideoRenderFrames` buffer (an external collaborator).  The callback slots
hold the identity of the registered sink, `none` for the C++ null pointer;
the thread handle is `some ()` when a `PlatformThread` is stored and `none`
for the null sentinel. -/
structure StreamState (β : Type) where
  stream_id_ : Nat
  disable_prerenderer_smoothing_ : Bool
  incoming_render_thread_ : Option Unit
  running_ : Bool
  external_callback_ : Option Nat
  render_callback_ : Option Nat
  render_buffers_ : β
  incoming_rate_ : Nat
  last_rate_calculation_time_ms_ : Nat
  num_frames_since_last_calculation_ : Nat

/-- The constructor `IncomingVideoStream(stream_id, disable_prerenderer_smoothing)`:
all state idle/empty, a fresh buffer, statistics zeroed. -/
def IncomingVideoStream (β : Type) (stream_id : Nat)
    (disable_prerenderer_smoothing : Bool) (freshBuffer : β) : StreamState β :=
  { stream_id_ := stream_id
    disable_prerenderer_smoothing_ := disable_prerenderer_smoothing
    incoming_render_thread_ := none
    running_ := false
    external_callback_ := none
    render_callback_ := none
    render_buffers_ := freshBuffer
    incoming_rate_ := 0
    last_rate_calculation_time_ms_ := 0
    num_frames_since_last_calculation_ := 0 }

namespace StreamState

variable {β : Type}

/-- Embeds `IncomingVideoStream::DeliverFrame`: under the thread (dispatch) lock,
skip the zero-size sentinel, otherwise invoke the external callback if set,
else the render callback if set, else nothing.  It mutates no field; its
effect is the (possibly empty) dispatch trace. -/
def DeliverFrame (s : StreamState β) (video_frame : VideoFrame) : List Ev :=
  if video_frame.IsZeroSize then
    []
  else
    match s.external_callback_ with
    | some cb => [Ev.dispatch cb s.stream_id_ video_frame]
    | none =>
      match s.render_callback_ with
      | some cb => [Ev.dispatch cb s.stream_id_ video_frame]
      | none => []

/-- The rate-statistics block of `IncomingVideoStream::RenderFrame`
(the lines under the `Rate statistics.` comment): increment the frame
counter, and once `now_ms` reaches window-start plus `kFrameRatePeriodMs`,
recompute `incoming_rate_` (with the `static_cast<uint32_t>` truncation),
zero the counter and advance the window start. -/
def rateStatisticsStep (cfg : Config) (s : StreamState β) (now_ms : Nat) :
    StreamState β :=
  let s1 := { s with num_frames_since_last_calculation_ :=
                s.num_frames_since_last_calculation_ + 1 }
  if s1.last_rate_calculation_time_ms_ + cfg.kFrameRatePeriodMs ≤ now_ms then
    { s1 with
      incoming_rate_ :=
        1000 * s1.num_frames_since_last_calculation_ /
          (now_ms - s1.last_rate_calculation_time_ms_) % 2 ^ 32
      num_frames_since_last_calculation_ := 0
      last_rate_calculation_time_ms_ := now_ms }
  else s1

/-- Embeds `IncomingVideoStream::RenderFrame(stream_id, video_frame)`.
`addFrame` is `VideoRenderFrames::AddFrame`, returning the new buffer state
and the count after the insert; `now_ms` is `TickTime::MillisecondTimestamp()`.
Returns the status code, the new state and the action trace. -/
def RenderFrame (cfg : Config) (addFrame : β → VideoFrame → β × Nat)
    (s : StreamState β) (stream_id : Nat) (video_frame : VideoFrame)
    (now_ms : Nat) : Int × StreamState β × List Ev :=
  if !s.running_ then
    (-1, s, [])
  else
    -- Rate statistics.
    let s2 := rateStatisticsStep cfg s now_ms
    -- Hand over or insert frame.
    if s2.disable_prerenderer_smoothing_ then
      (0, s2, s2.DeliverFrame video_frame)
    else
      let r := addFrame s2.render_buffers_ video_frame
      (0, { s2 with render_buffers_ := r.1 },
        if r.2 = 1 then [Ev.bufferInsert video_frame, Ev.eventSet]
        else [Ev.bufferInsert video_frame])

/-- Embeds `IncomingVideoStream::SetRenderCallback`. -/
def SetRenderCallback (s : StreamState β) (render_callback : Option Nat) :
    StreamState β :=
  { s with render_callback_ := render_callback }

/-- Embeds `IncomingVideoStream::SetExternalCallback`. -/
def SetExternalCallback (s : StreamState β) (external_callback : Option Nat) :
    StreamState β :=
  { s with external_callback_ := external_callback }

/-- Embeds `IncomingVideoStream::SetExpectedRenderDelay(delay_ms)`.
`setRenderDelay` is `VideoRenderFrames::SetRenderDelay`, returning the new
buffer state and its status code. -/
def SetExpectedRenderDelay (setRenderDelay : β → Int → β × Int)
    (s : StreamState β) (delay_ms : Int) : Int × StreamState β × List Ev :=
  if s.running_ then
    (-1, s, [])
  else
    let r := setRenderDelay s.render_buffers_ delay_ms
    (r.2, { s with render_buffers_ := r.1 }, [Ev.bufferSetDelay delay_ms])

/-- Embeds `IncomingVideoStream::Start()`.  Thread creation by `new` cannot yield
null, so the embedded null check always passes, as in the source. -/
def Start (cfg : Config) (s : StreamState β) : Int × StreamState β × List Ev :=
  if s.running_ then
    (0, s, [])
  else if !s.disable_prerenderer_smoothing_ then
    (0, { s with incoming_render_thread_ := some (), running_ := true },
      [Ev.threadCreate, Ev.threadStart,
        Ev.timerStart false cfg.kEventStartupTimeMs])
  else
    (0, { s with running_ := true }, [])

/-- Embeds `IncomingVideoStream::Stop()`: if running, release the stored thread
handle (null sentinel) under the thread lock, stop the timer, signal the
event, then join and delete the released thread, and clear `running_`. -/
def Stop (s : StreamState β) : Int × StreamState β × List Ev :=
  if !s.running_ then
    (0, s, [])
  else
    match s.incoming_render_thread_ with
    | some _ =>
      (0, { s with incoming_render_thread_ := none, running_ := false },
        [Ev.threadReleased, Ev.timerStop, Ev.eventSet,
          Ev.threadJoin, Ev.threadDelete])
    | none =>
      (0, { s with running_ := false }, [])

/-- Embeds `IncomingVideoStream::Reset()`: flush the render buffer.
`releaseAllFrames` is `VideoRenderFrames::ReleaseAllFrames`. -/
def Reset (releaseAllFrames : β → β) (s : StreamState β) :
    Int × StreamState β × List Ev :=
  (0, { s with render_buffers_ := releaseAllFrames s.render_buffers_ },
    [Ev.bufferFlush])

/-- Embeds `IncomingVideoStream::StreamId()`. -/
def StreamId (s : StreamState β) : Nat := s.stream_id_

/-- Embeds `IncomingVideoStream::IncomingRate()`. -/
def IncomingRate (s : StreamState β) : Nat := s.incoming_rate_

/-- One call of `IncomingVideoStream::IncomingVideoStreamProcess()` (the
presentation-loop thread function body).  `w` is the result of
`deliver_buffer_event_->Wait(kEventMaxWaitTimeMs)`; `frameToRender` is
`VideoRenderFrames::FrameToRender` (returns the new buffer state and the
popped frame) and `timeToNextFrameRelease` is
`VideoRenderFrames::TimeToNextFrameRelease`.  Returns whether the loop
continues, the new state and the action trace. -/
def IncomingVideoStreamProcess (cfg : Config)
    (frameToRender : β → β × VideoFrame) (timeToNextFrameRelease : β → Nat)
    (s : StreamState β) (w : WaitResult) : Bool × StreamState β × List Ev :=
  if w ≠ WaitResult.error then
    match s.incoming_render_thread_ with
    | none =>
      -- Terminating
      (false, s, [])
    | some _ =>
      -- Get a new frame to render and the time for the frame after this one.
      let r := frameToRender s.render_buffers_
      let wait_time0 := timeToNextFrameRelease r.1
      -- Set timer for next frame to render.
      let wait_time :=
        if cfg.kEventMaxWaitTimeMs < wait_time0 then cfg.kEventMaxWaitTimeMs
        else wait_time0
      let s1 := { s with render_buffers_ := r.1 }
      (true, s1,
        Ev.bufferPop :: Ev.timerStart false wait_time :: s1.DeliverFrame r.2)
  else
    (true, s, [])

end StreamState

/-! Concrete instances used to exercise the theorems: a list-backed render
buffer (append on insert, report the new depth; pop from the front), a
sample configuration, and sample streams obtained through the constructor
and `Start`. -/

/-- A list-backed `AddFrame`: append and report the count after insert. -/
def listAddFrame (b : List VideoFrame) (f : VideoFrame) :
    List VideoFrame × Nat :=
  (b ++ [f], b.length + 1)

/-- A list-backed `FrameToRender`: pop the front frame, or the zero-size
sentinel when empty. -/
def listFrameToRender (b : List VideoFrame) : List VideoFrame × VideoFrame :=
  match b with
  | [] => ([], ⟨0, true⟩)
  | f :: rest => (rest, f)

/-- A sample `TimeToNextFrameRelease`: a fixed small delay. -/
def listTimeToNext (_ : List VideoFrame) : Nat := 25

/-- A sample `SetRenderDelay`: accept and succeed. -/
def listSetRenderDelay (b : List VideoFrame) (_ : Int) :
    List VideoFrame × Int :=
  (b, 0)

/-- A sample configuration: 1000 ms rate window, 10 ms startup arm,
100 ms safety ceiling. -/
def cfgEx : Config := ⟨1000, 10, 100⟩

/-- A sample non-empty frame. -/
def frameEx : VideoFrame := ⟨7, false⟩

/-- A freshly constructed buffered-mode stream (id 5, smoothing enabled). -/
def sIdleEx : StreamState (List VideoFrame) :=
  IncomingVideoStream (List VideoFrame) 5 false []

/-- The buffered-mode sample stream after `Start`: running, with a stored
presentation-thread handle. -/
def sRunEx : StreamState (List VideoFrame) :=
  (sIdleEx.Start cfgEx).2.1

/-- A running bypass-mode stream (id 9) with both callback slots set:
render callback 3, external callback 4. -/
def sBypassEx : StreamState (List VideoFrame) :=
  ((((IncomingVideoStream (List VideoFrame) 9 true []).SetRenderCallback
      (some 3)).SetExternalCallback (some 4)).Start cfgEx).2.1

/-- The rate-statistics block leaves the stream id unchanged. -/
theorem StreamState.rateStatisticsStep_stream_id {β : Type} (cfg : Config)
    (s : StreamState β) (now_ms : Nat) :
    (rateStatisticsStep cfg s now_ms).stream_id_ = s.stream_id_ := by
  simp only [rateStatisticsStep]
  split <;> rfl

/-- The rate-statistics block leaves the mode flag unchanged. -/
theorem StreamState.rateStatisticsStep_mode {β : Type} (cfg : Config)
    (s : StreamState β) (now_ms : Nat) :
    (rateStatisticsStep cfg s now_ms).disable_prerenderer_smoothing_ =
      s.disable_prerenderer_smoothing_ := by
  simp only [rateStatisticsStep]
  split <;> rfl

/-- The rate-statistics block leaves the render buffer unchanged. -/
theorem StreamState.rateStatisticsStep_buffers {β : Type} (cfg : Config)
    (s : StreamState β) (now_ms : Nat) :
    (rateStatisticsStep cfg s now_ms).render_buffers_ =
      s.render_buffers_ := by
  simp only [rateStatisticsStep]
  split <;> rfl

open StreamState in
/-- Claim C1: when `Stop()` is called while running (thread handle stored), it
returns success, clears the stored handle to the null sentinel and clears
`running_`; its action trace releases the handle first, then stops the
timer, then signals the wake primitive once, then joins and frees the
thread; and the presentation loop, woken in the resulting state (any
non-error wake), observes the null handle and returns `false` without
doing anything. -/
theorem C1_stop_shutdown_protocol {β : Type} (cfg : Config)
    (frameToRender : β → β × VideoFrame) (timeToNextFrameRelease : β → Nat)
    (s : StreamState β) (hr : s.running_ = true)
    (ht : s.incoming_render_thread_ = some ()) :
    s.Stop.1 = 0 ∧
    s.Stop.2.1.running_ = false ∧
    s.Stop.2.1.incoming_render_thread_ = none ∧
    s.Stop.2.2 = [Ev.threadReleased, Ev.timerStop, Ev.eventSet,
      Ev.threadJoin, Ev.threadDelete] ∧
    ∀ w : WaitResult, w ≠ WaitResult.error →
      (s.Stop.2.1.IncomingVideoStreamProcess cfg frameToRender
        timeToNextFrameRelease w) = (false, s.Stop.2.1, []) := by
  have hstop : s.Stop =
      (0, { s with incoming_render_thread_ := none, running_ := false },
        [Ev.threadReleased, Ev.timerStop, Ev.eventSet,
          Ev.threadJoin, Ev.threadDelete]) := by
    simp [Stop, hr, ht]
  rw [hstop]
  refine ⟨rfl, rfl, rfl, rfl, ?_⟩
  intro w hw
  simp [IncomingVideoStreamProcess, hw]

/-- Witness for C1: the started sample stream, stopped. -/
theorem C1_stop_shutdown_protocol_witness :
    StreamState.Stop sRunEx |>.2.2 = [Ev.threadReleased, Ev.timerStop,
      Ev.eventSet, Ev.threadJoin, Ev.threadDelete] :=
  (C1_stop_shutdown_protocol cfgEx listFrameToRender listTimeToNext
    sRunEx rfl rfl).2.2.2.1

open StreamState in
/-- Claim C2: `RenderFrame` while not running returns `-1`, leaves the state
(in particular the rate counter, window start, computed rate and buffer)
unchanged, and performs no action at all (no dispatch, no insert). -/
theorem C2_render_frame_not_running {β : Type} (cfg : Config)
    (addFrame : β → VideoFrame → β × Nat) (s : StreamState β)
    (stream_id : Nat) (f : VideoFrame) (now_ms : Nat)
    (h : s.running_ = false) :
    s.RenderFrame cfg addFrame stream_id f now_ms = (-1, s, []) := by
  simp [RenderFrame, h]

/-- Witness for C2: a freshly constructed stream rejects a frame. -/
theorem C2_render_frame_not_running_witness :
    StreamState.RenderFrame cfgEx listAddFrame sIdleEx 5 frameEx 123 =
      (-1, sIdleEx, []) :=
  C2_render_frame_not_running cfgEx listAddFrame sIdleEx 5 frameEx 123 rfl

open StreamState in
/-- Claim C9: when the wait on the wake primitive reports `kEventError`, the
whole loop body is skipped — no state change, no action — and the thread
function returns `true`, so the loop continues. -/
theorem C9_wait_error_continues {β : Type} (cfg : Config)
    (frameToRender : β → β × VideoFrame) (timeToNextFrameRelease : β → Nat)
    (s : StreamState β) :
    s.IncomingVideoStreamProcess cfg frameToRender timeToNextFrameRelease
      WaitResult.error = (true, s, []) := by
  simp [IncomingVideoStreamProcess]

open StreamState in
/-- Claim C3: `RenderFrame` while running in buffered mode returns `0`, updates
the stored buffer to the result of the buffer's insert, records the insert
in its trace, and signals the wake primitive if and only if the count the
buffer reports after the insert equals 1. -/
theorem C3_buffered_insert_signal {β : Type} (cfg : Config)
    (addFrame : β → VideoFrame → β × Nat) (s : StreamState β)
    (stream_id : Nat) (f : VideoFrame) (now_ms : Nat)
    (hr : s.running_ = true) (hm : s.disable_prerenderer_smoothing_ = false) :
    (s.RenderFrame cfg addFrame stream_id f now_ms).1 = 0 ∧
    (s.RenderFrame cfg addFrame stream_id f now_ms).2.1.render_buffers_ =
      (addFrame s.render_buffers_ f).1 ∧
    Ev.bufferInsert f ∈ (s.RenderFrame cfg addFrame stream_id f now_ms).2.2 ∧
    (Ev.eventSet ∈ (s.RenderFrame cfg addFrame stream_id f now_ms).2.2 ↔
      (addFrame s.render_buffers_ f).2 = 1) := by
  simp only [RenderFrame, hr, Bool.not_true, Bool.false_eq_true, if_false,
    rateStatisticsStep_mode, hm, rateStatisticsStep_buffers]
  by_cases hc : (addFrame s.render_buffers_ f).2 = 1 <;> simp [hc]

/-- Witness for C3: the first frame pushed into the running sample stream is
inserted and, the buffer depth becoming 1, the wake primitive is
signalled. -/
theorem C3_buffered_insert_signal_witness :
    Ev.eventSet ∈
      (StreamState.RenderFrame cfgEx listAddFrame sRunEx 5 frameEx 123).2.2 ↔
      (listAddFrame sRunEx.render_buffers_ frameEx).2 = 1 :=
  (C3_buffered_insert_signal cfgEx listAddFrame sRunEx 5 frameEx 123
    rfl rfl).2.2.2

open StreamState in
/-- Claim C4: `Start()` while already running and `Stop()` while not running are
no-ops: each returns `0`, leaves the state exactly as it was, and performs
no action (no thread created, no timer armed, nothing signalled). -/
theorem C4_start_stop_idempotent {β : Type} (cfg : Config)
    (s t : StreamState β) (hs : s.running_ = true)
    (ht : t.running_ = false) :
    s.Start cfg = (0, s, []) ∧ t.Stop = (0, t, []) := by
  constructor
  · simp [Start, hs]
  · simp [Stop, ht]

/-- Witness for C4: starting the already-started sample stream and stopping a
freshly constructed one. -/
theorem C4_start_stop_idempotent_witness :
    StreamState.Start cfgEx sRunEx = (0, sRunEx, []) ∧
    StreamState.Stop sIdleEx = (0, sIdleEx, []) :=
  C4_start_stop_idempotent cfgEx sRunEx sIdleEx rfl rfl

open StreamState in
/-- Claim C5: the dispatch gate: a zero-size frame produces no dispatch; a
non-zero frame goes to the external (override) callback when one is set —
and then every dispatched event is to that callback, so the render
(primary) callback is never invoked while an override is set — else to the
render callback when set, else nowhere. -/
theorem C5_dispatch_gate {β : Type} (s : StreamState β) (f : VideoFrame) :
    (f.IsZeroSize = true → s.DeliverFrame f = []) ∧
    (∀ cb, f.IsZeroSize = false → s.external_callback_ = some cb →
      s.DeliverFrame f = [Ev.dispatch cb s.stream_id_ f]) ∧
    (∀ cb, s.external_callback_ = some cb →
      ∀ e ∈ s.DeliverFrame f, e = Ev.dispatch cb s.stream_id_ f) ∧
    (∀ cb, f.IsZeroSize = false → s.external_callback_ = none →
      s.render_callback_ = some cb →
      s.DeliverFrame f = [Ev.dispatch cb s.stream_id_ f]) ∧
    (f.IsZeroSize = false → s.external_callback_ = none →
      s.render_callback_ = none → s.DeliverFrame f = []) := by
  refine ⟨?_, ?_, ?_, ?_, ?_⟩
  · intro hz; simp [DeliverFrame, hz]
  · intro cb hz he; simp [DeliverFrame, hz, he]
  · intro cb he e hmem
    by_cases hz : f.IsZeroSize <;>
      simp [DeliverFrame, hz, he] at hmem <;> simp_all
  · intro cb hz he hrc; simp [DeliverFrame, hz, he, hrc]
  · intro hz he hrc; simp [DeliverFrame, hz, he, hrc]

/-- Witness for C5: on the bypass sample stream (override callback 4, render
callback 3 both set) a non-zero frame is dispatched to the override
alone. -/
theorem C5_dispatch_gate_witness :
    StreamState.DeliverFrame sBypassEx frameEx =
      [Ev.dispatch 4 sBypassEx.stream_id_ frameEx] :=
  (C5_dispatch_gate sBypassEx frameEx).2.1 4 rfl rfl

open StreamState in
/-- Claim C6: the rate estimator on a successful ingestion: the frame counter is
incremented; then, exactly when `now_ms` has reached window-start plus the
period, the rate becomes `1000 * counter / (now_ms - window-start)` (cast
to 32 bits), the counter resets to zero and window-start advances to
`now_ms`; otherwise rate, counter (beyond the increment) and window-start
are untouched; and `IncomingRate` returns the stored rate. -/
theorem C6_rate_estimator {β : Type} (cfg : Config)
    (addFrame : β → VideoFrame → β × Nat) (s : StreamState β)
    (stream_id : Nat) (f : VideoFrame) (now_ms : Nat)
    (hr : s.running_ = true) :
    (s.last_rate_calculation_time_ms_ + cfg.kFrameRatePeriodMs ≤ now_ms →
      (s.RenderFrame cfg addFrame stream_id f now_ms).2.1.incoming_rate_ =
        1000 * (s.num_frames_since_last_calculation_ + 1) /
          (now_ms - s.last_rate_calculation_time_ms_) % 2 ^ 32 ∧
      (s.RenderFrame cfg addFrame stream_id f
        now_ms).2.1.num_frames_since_last_calculation_ = 0 ∧
      (s.RenderFrame cfg addFrame stream_id f
        now_ms).2.1.last_rate_calculation_time_ms_ = now_ms) ∧
    (now_ms < s.last_rate_calculation_time_ms_ + cfg.kFrameRatePeriodMs →
      (s.RenderFrame cfg addFrame stream_id f now_ms).2.1.incoming_rate_ =
        s.incoming_rate_ ∧
      (s.RenderFrame cfg addFrame stream_id f
        now_ms).2.1.num_frames_since_last_calculation_ =
        s.num_frames_since_last_calculation_ + 1 ∧
      (s.RenderFrame cfg addFrame stream_id f
        now_ms).2.1.last_rate_calculation_time_ms_ =
        s.last_rate_calculation_time_ms_) ∧
    (s.RenderFrame cfg addFrame stream_id f now_ms).2.1.IncomingRate =
      (s.RenderFrame cfg addFrame stream_id f now_ms).2.1.incoming_rate_ := by
  refine ⟨?_, ?_, rfl⟩
  · intro hnow
    simp only [RenderFrame, rateStatisticsStep, hr, Bool.not_true,
      Bool.false_eq_true, if_false, hnow, if_true]
    split <;> simp
  · intro hnow
    rw [← Nat.not_le] at hnow
    simp only [RenderFrame, rateStatisticsStep, hr, Bool.not_true,
      Bool.false_eq_true, if_false, hnow, if_false]
    split <;> simp

/-- Witness for C6: on the running sample stream, ingestion at time 123 (window
start 0, period 1000) leaves the rate 0 and counts the frame. -/
theorem C6_rate_estimator_witness :
    123 < sRunEx.last_rate_calculation_time_ms_ + cfgEx.kFrameRatePeriodMs ∧
    (StreamState.RenderFrame cfgEx listAddFrame sRunEx 5 frameEx
      123).2.1.incoming_rate_ = sRunEx.incoming_rate_ :=
  ⟨by decide,
    ((C6_rate_estimator cfgEx listAddFrame sRunEx 5 frameEx 123 rfl).2.1
      (by decide)).1⟩

open StreamState in
/-- Claim C7: `SetExpectedRenderDelay` while running returns `-1`, leaves the
state unchanged and never calls the buffer; while not running it forwards
the delay to the buffer's `SetRenderDelay`, stores the resulting buffer
state, and returns the buffer's status. -/
theorem C7_set_expected_render_delay {β : Type}
    (setRenderDelay : β → Int → β × Int) (s : StreamState β)
    (delay_ms : Int) :
    (s.running_ = true →
      s.SetExpectedRenderDelay setRenderDelay delay_ms = (-1, s, [])) ∧
    (s.running_ = false →
      s.SetExpectedRenderDelay setRenderDelay delay_ms =
        ((setRenderDelay s.render_buffers_ delay_ms).2,
          { s with render_buffers_ :=
              (setRenderDelay s.render_buffers_ delay_ms).1 },
          [Ev.bufferSetDelay delay_ms])) := by
  constructor
  · intro h; simp [SetExpectedRenderDelay, h]
  · intro h; simp [SetExpectedRenderDelay, h]

/-- Witness for C7: the running sample stream rejects a delay change. -/
theorem C7_set_expected_render_delay_witness :
    StreamState.SetExpectedRenderDelay listSetRenderDelay sRunEx 30 =
      (-1, sRunEx, []) :=
  (C7_set_expected_render_delay listSetRenderDelay sRunEx 30).1 rfl

open StreamState in
/-- Claim C8: a non-terminating presentation-loop iteration (non-error wake,
handle still stored) pops the next frame, and its trace re-arms the
one-shot timer with the buffer's reported delay clamped to the safety
ceiling — equal to the delay when it is at most the ceiling, to the
ceiling otherwise — strictly before any dispatch of the popped frame. -/
theorem C8_loop_rearm_clamped {β : Type} (cfg : Config)
    (frameToRender : β → β × VideoFrame) (timeToNextFrameRelease : β → Nat)
    (s : StreamState β) (w : WaitResult) (hw : w ≠ WaitResult.error)
    (ht : s.incoming_render_thread_ = some ()) :
    (s.IncomingVideoStreamProcess cfg frameToRender timeToNextFrameRelease
        w).2.2 =
      Ev.bufferPop ::
        Ev.timerStart false
          (if cfg.kEventMaxWaitTimeMs <
              timeToNextFrameRelease (frameToRender s.render_buffers_).1 then
            cfg.kEventMaxWaitTimeMs
          else timeToNextFrameRelease (frameToRender s.render_buffers_).1) ::
        DeliverFrame
          { s with render_buffers_ := (frameToRender s.render_buffers_).1 }
          (frameToRender s.render_buffers_).2 ∧
    (timeToNextFrameRelease (frameToRender s.render_buffers_).1 ≤
        cfg.kEventMaxWaitTimeMs →
      (if cfg.kEventMaxWaitTimeMs <
          timeToNextFrameRelease (frameToRender s.render_buffers_).1 then
        cfg.kEventMaxWaitTimeMs
      else timeToNextFrameRelease (frameToRender s.render_buffers_).1) =
        timeToNextFrameRelease (frameToRender s.render_buffers_).1) ∧
    (cfg.kEventMaxWaitTimeMs <
        timeToNextFrameRelease (frameToRender s.render_buffers_).1 →
      (if cfg.kEventMaxWaitTimeMs <
          timeToNextFrameRelease (frameToRender s.render_buffers_).1 then
        cfg.kEventMaxWaitTimeMs
      else timeToNextFrameRelease (frameToRender s.render_buffers_).1) =
        cfg.kEventMaxWaitTimeMs) := by
  refine ⟨?_, ?_, ?_⟩
  · simp [IncomingVideoStreamProcess, hw, ht]
  · intro h; rw [if_neg (Nat.not_lt.mpr h)]
  · intro h; rw [if_pos h]

/-- Witness for C8: on the running sample stream holding one frame, a signaled
wake pops it, re-arms the timer with the 25 ms delay (below the 100 ms
ceiling) and then dispatches. -/
theorem C8_loop_rearm_clamped_witness :
    (StreamState.IncomingVideoStreamProcess cfgEx listFrameToRender
        listTimeToNext sRunEx WaitResult.signaled).2.2 =
      Ev.bufferPop ::
        Ev.timerStart false
          (if cfgEx.kEventMaxWaitTimeMs <
              listTimeToNext (listFrameToRender sRunEx.render_buffers_).1 then
            cfgEx.kEventMaxWaitTimeMs
          else listTimeToNext (listFrameToRender sRunEx.render_buffers_).1) ::
        StreamState.DeliverFrame
          { sRunEx with
              render_buffers_ := (listFrameToRender sRunEx.render_buffers_).1 }
          (listFrameToRender sRunEx.render_buffers_).2 :=
  (C8_loop_rearm_clamped cfgEx listFrameToRender listTimeToNext sRunEx
    WaitResult.signaled (by decide) rfl).1

open StreamState in
/-- Claim C10: the `stream_id` argument of `RenderFrame` is never used — the call
behaves identically for any two values of it; every dispatch event carries
the stored `stream_id_`; no operation changes `stream_id_`; `StreamId`
returns the stored id, which the constructor sets to its argument. -/
theorem C10_stream_id_unused {β : Type} (cfg : Config)
    (addFrame : β → VideoFrame → β × Nat)
    (frameToRender : β → β × VideoFrame) (timeToNextFrameRelease : β → Nat)
    (s : StreamState β) (id1 id2 : Nat) (f : VideoFrame) (now_ms : Nat)
    (w : WaitResult) (b0 : β) (d : Bool) :
    s.RenderFrame cfg addFrame id1 f now_ms =
      s.RenderFrame cfg addFrame id2 f now_ms ∧
    (∀ cb sid fr, Ev.dispatch cb sid fr ∈ s.DeliverFrame f →
      sid = s.stream_id_) ∧
    (∀ cb sid fr, Ev.dispatch cb sid fr ∈
        (s.RenderFrame cfg addFrame id1 f now_ms).2.2 →
      sid = s.stream_id_) ∧
    (s.Start cfg).2.1.stream_id_ = s.stream_id_ ∧
    s.Stop.2.1.stream_id_ = s.stream_id_ ∧
    (s.RenderFrame cfg addFrame id1 f now_ms).2.1.stream_id_ =
      s.stream_id_ ∧
    (s.IncomingVideoStreamProcess cfg frameToRender timeToNextFrameRelease
        w).2.1.stream_id_ = s.stream_id_ ∧
    s.StreamId = s.stream_id_ ∧
    (IncomingVideoStream β id1 d b0).StreamId = id1 := by
  have hdel : ∀ (t : StreamState β) (fr : VideoFrame) (cb sid : Nat)
      (fr2 : VideoFrame), Ev.dispatch cb sid fr2 ∈ t.DeliverFrame fr →
      sid = t.stream_id_ := by
    intro t fr cb sid fr2 hmem
    unfold DeliverFrame at hmem
    split at hmem
    · simp at hmem
    · revert hmem
      split
      · intro hmem; simp at hmem; exact hmem.2.1
      · split
        · intro hmem; simp at hmem; exact hmem.2.1
        · intro hmem; simp at hmem
  refine ⟨rfl, fun cb sid fr h => hdel s f cb sid fr h, ?_, ?_, ?_, ?_, ?_,
    rfl, rfl⟩
  · intro cb sid fr hmem
    unfold RenderFrame at hmem
    split at hmem
    · simp at hmem
    · dsimp only at hmem
      split at hmem
      · exact (hdel _ _ _ _ _ hmem).trans
          (rateStatisticsStep_stream_id cfg s now_ms)
      · split at hmem <;> simp at hmem
  · unfold Start; split
    · rfl
    · split <;> rfl
  · unfold Stop; split
    · rfl
    · split <;> rfl
  · unfold RenderFrame; split
    · rfl
    · dsimp only
      split
      · exact rateStatisticsStep_stream_id cfg s now_ms
      · exact rateStatisticsStep_stream_id cfg s now_ms
  · unfold IncomingVideoStreamProcess; split
    · split <;> rfl
    · rfl

/-- Witness for C10: on the bypass sample stream (id 9) the result of
`RenderFrame` does not depend on the id argument. -/
theorem C10_stream_id_unused_witness :
    StreamState.RenderFrame cfgEx listAddFrame sBypassEx 1 frameEx 123 =
      StreamState.RenderFrame cfgEx listAddFrame sBypassEx 2 frameEx 123 :=
  (C10_stream_id_unused cfgEx listAddFrame listFrameToRender listTimeToNext
    sBypassEx 1 2 frameEx 123 WaitResult.signaled [] true).1

end WebRtc
